import Mathlib

/-!
Verification of the NetBox plugin-registration subsystem
(`netbox/extras/plugins/__init__.py`).

The Python module is a thin, single-threaded validation-and-registration
layer.  We give a shallow embedding:

* Python dicts are association lists `List (String × α)` with first-match
  lookup; insertion of a fresh key appends at the end (Python dicts keep
  insertion order) and assignment to an existing key updates it in place.
* Raising an exception is modelled with `Except`; functions that mutate the
  process-wide registry or the caller's `user_config` in place are modelled
  by state passing: they return the exception outcome together with the
  final state of the structure they mutate.
* Parsed version values (`packaging.version.parse`) form a total order and
  the code only compares them, so they are embedded as `Nat`.
* Python's dynamic typing, where the source performs `isinstance` /
  `inspect.isclass` / exact `type(x)` checks, is embedded by small inductive
  types of runtime shapes that distinguish exactly the cases the checks
  distinguish.
-/

namespace NetBoxPlugins

/-- Decidable equality of `Except` outcomes, so that concrete runs of the
embedded functions can be checked by `decide`. -/
instance instDecEqExcept {ε α : Type} [DecidableEq ε] [DecidableEq α] :
    DecidableEq (Except ε α) := fun x y =>
  match x, y with
  | .error a, .error b =>
      if h : a = b then .isTrue (congrArg Except.error h)
      else .isFalse (fun hc => h (Except.error.inj hc))
  | .ok a, .ok b =>
      if h : a = b then .isTrue (congrArg Except.ok h)
      else .isFalse (fun hc => h (Except.ok.inj hc))
  | .error _, .ok _ => .isFalse (fun hc => Except.noConfusion hc)
  | .ok _, .error _ => .isFalse (fun hc => Except.noConfusion hc)

/-- First-match lookup in a Python-dict model (`d[k]` when present). -/
def dictLookup {α : Type} (d : List (String × α)) (k : String) : Option α :=
  match d with
  | [] => none
  | (k', v) :: rest => if k' == k then some v else dictLookup rest k

/-- Key-membership test, modelling Python's `k in d`. -/
def dictContains {α : Type} (d : List (String × α)) (k : String) : Bool :=
  match d with
  | [] => false
  | (k', _) :: rest => k' == k || dictContains rest k

/-- Assignment `d[k] = v`: update the existing entry in place, or append a
fresh entry at the end (Python dicts keep insertion order). -/
def dictSet {α : Type} (d : List (String × α)) (k : String) (v : α) :
    List (String × α) :=
  match d with
  | [] => [(k, v)]
  | (k', v') :: rest =>
      if k' == k then (k, v) :: rest else (k', v') :: dictSet rest k v

/-- Parsed version values: `packaging.version.parse` yields a totally
ordered domain and `PluginConfig.validate` only compares them, so any
linearly ordered embedding is faithful; we use `Nat`. -/
abbrev Version := Nat

/-- Opaque configuration setting values. -/
abbrev ConfigVal := String

/-- The model of a Python `user_config` dict. -/
abbrev CfgDict := List (String × ConfigVal)

/-- The class-level attributes of a `PluginConfig` subclass that
`PluginConfig.validate` reads. -/
structure PluginConfigMeta where
  min_version : Option Version
  max_version : Option Version
  required_settings : List String
  default_settings : List (String × ConfigVal)

/-- The `ImproperlyConfigured` errors `PluginConfig.validate` can raise.
Each constructor carries the datum interpolated into the source's
message: the violated bound, or the name of the missing required
setting. -/
inductive ConfigError
  | minVersionRequired (v : Version)
  | maxVersionRequired (v : Version)
  | missingSetting (s : String)
  deriving DecidableEq

/-- The defaults-application loop of `PluginConfig.validate`:
`for setting, value in cls.default_settings.items(): if setting not in
user_config: user_config[setting] = value`. -/
def applyDefaults (defaults : List (String × ConfigVal)) (cfg : CfgDict) :
    CfgDict :=
  match defaults with
  | [] => cfg
  | (k, v) :: rest =>
      applyDefaults rest (if dictContains cfg k then cfg else cfg ++ [(k, v)])

/-- The required-settings loop of `PluginConfig.validate`: returns the first
setting of `required` missing from `cfg` (the one whose check raises), or
`none` when all are present. -/
def checkRequired (required : List String) (cfg : CfgDict) : Option String :=
  match required with
  | [] => none
  | s :: rest => if dictContains cfg s then checkRequired rest cfg else some s

/-- The required-settings check and defaults application of
`PluginConfig.validate` (the part after the version checks). -/
def validateRequiredStep (cls : PluginConfigMeta) (cfg : CfgDict) :
    Except ConfigError Unit × CfgDict :=
  match checkRequired cls.required_settings cfg with
  | some s => (.error (.missingSetting s), cfg)
  | none => (.ok (), applyDefaults cls.default_settings cfg)

/-- The `max_version` check of `PluginConfig.validate` (the source's
`current_version > max_version`), then the remaining steps. -/
def validateMaxStep (cls : PluginConfigMeta) (cfg : CfgDict) (v : Version) :
    Except ConfigError Unit × CfgDict :=
  match cls.max_version with
  | some M =>
      if M < v then (.error (.maxVersionRequired M), cfg)
      else validateRequiredStep cls cfg
  | none => validateRequiredStep cls cfg

/-- `PluginConfig.validate(user_config, netbox_version)`.  Steps in source
order: `min_version` check, `max_version` check, required-settings check,
defaults application.  The second component is the final state of the
caller's `user_config` (the source mutates it in place only in the
defaults loop, which runs after every raise point). -/
def PluginConfigMeta.validate (cls : PluginConfigMeta) (cfg : CfgDict)
    (v : Version) : Except ConfigError Unit × CfgDict :=
  match cls.min_version with
  | some m =>
      if v < m then (.error (.minVersionRequired m), cfg)
      else validateMaxStep cls cfg v
  | none => validateMaxStep cls cfg v

/-- The `TypeError` / `ValueError` exceptions the registrars and menu
constructors raise, with their messages. -/
inductive PyError
  | typeError (msg : String)
  | valueError (msg : String)
  deriving DecidableEq

/-- Runtime type tags for arguments subjected to the source's exact
`type(x) in (list, tuple)` test.  `pyListSubclass` / `pyTupleSubclass`
stand for instances of proper subclasses of `list` / `tuple` (which
`isinstance` would accept but an exact type test rejects). -/
inductive PyType
  | pyList
  | pyTuple
  | pyListSubclass
  | pyTupleSubclass
  | pyOther
  deriving DecidableEq

/-- The source's exact runtime-type test `type(x) in (list, tuple)`. -/
def typeInListTuple (t : PyType) : Bool :=
  t == .pyList || t == .pyTuple

/-- What `isinstance(x, (list, tuple))` would compute on the same tags:
it also accepts proper subclasses.  (The source does NOT use this for
`permissions` / `buttons`; it is here to state the contrast.) -/
def isinstanceListTuple (t : PyType) : Bool :=
  t == .pyList || t == .pyTuple || t == .pyListSubclass || t == .pyTupleSubclass

/-- A Python sequence argument: its exact runtime type tag and its
elements. -/
structure PySeq (α : Type) where
  ty : PyType
  elems : List α
  deriving DecidableEq

namespace ButtonColorChoices

/-- Modelled from the spec: `ButtonColorChoices.DEFAULT`, the class-level
default button color.  `utilities/choices.py` is not under `src/`; the spec
only requires an enumerated palette, whose concrete members are
irrelevant to the claims. -/
def DEFAULT : String := "outline-dark"

/-- Modelled from the spec: `ButtonColorChoices.values()`, the enumerated
button-color palette.  `utilities/choices.py` is not under `src/`; only
membership in the palette matters to the claims. -/
def values : List String := [DEFAULT, "blue", "gray", "green", "red", "yellow"]

end ButtonColorChoices

/-- A fully constructed `PluginMenuButton`. -/
structure PluginMenuButton where
  link : String
  title : String
  icon_class : String
  color : String
  permissions : List String
  deriving DecidableEq

/-- The color-setting tail of `PluginMenuButton.__init__` (runs after the
permissions check): `if color is not None: if color not in
ButtonColorChoices.values(): raise ValueError(...); self.color = color`,
with the class-level default `color = ButtonColorChoices.DEFAULT`
otherwise. -/
def buttonSetColor (link title icon_class : String) (color : Option String)
    (permissions : List String) : Except PyError PluginMenuButton :=
  match color with
  | some c =>
      if ButtonColorChoices.values.contains c then
        .ok { link := link, title := title, icon_class := icon_class,
              color := c, permissions := permissions }
      else
        .error (.valueError "Button color must be a choice within ButtonColorChoices.")
  | none =>
      .ok { link := link, title := title, icon_class := icon_class,
            color := ButtonColorChoices.DEFAULT, permissions := permissions }

/-- `PluginMenuButton.__init__(link, title, icon_class, color=None,
permissions=None)`: sets the plain fields, then checks
`type(permissions) in (list, tuple)` (exact type test, raising
`TypeError` otherwise), then validates the color.  The class-level
default `permissions = []` applies when `permissions is None`. -/
def PluginMenuButton.init (link title icon_class : String)
    (color : Option String) (permissions : Option (PySeq String)) :
    Except PyError PluginMenuButton :=
  match permissions with
  | some p =>
      if typeInListTuple p.ty then
        buttonSetColor link title icon_class color p.elems
      else .error (.typeError "Permissions must be passed as a tuple or list.")
  | none => buttonSetColor link title icon_class color []

/-- An element of a `buttons` collection as seen at registration time:
`PluginMenuItem.__init__` checks only the collection's runtime type, so
the stored elements may or may not be `PluginMenuButton` instances;
`register_menu_items` later `isinstance`-checks each one.  `other` carries
the display tag of a non-button object. -/
inductive BtnObj
  | button (b : PluginMenuButton)
  | other (tag : String)
  deriving DecidableEq

/-- A fully constructed `PluginMenuItem`. -/
structure PluginMenuItem where
  link : String
  link_text : String
  permissions : List String
  buttons : List BtnObj
  deriving DecidableEq

/-- The buttons-setting tail of `PluginMenuItem.__init__` (runs after the
permissions check): `if buttons is not None: if type(buttons) not in
(list, tuple): raise TypeError(...); self.buttons = buttons`, with the
class-level default `buttons = []` otherwise.  Elements are not
inspected here. -/
def itemSetButtons (link link_text : String) (permissions : List String)
    (buttons : Option (PySeq BtnObj)) : Except PyError PluginMenuItem :=
  match buttons with
  | some b =>
      if typeInListTuple b.ty then
        .ok { link := link, link_text := link_text,
              permissions := permissions, buttons := b.elems }
      else .error (.typeError "Buttons must be passed as a tuple or list.")
  | none =>
      .ok { link := link, link_text := link_text,
            permissions := permissions, buttons := [] }

/-- `PluginMenuItem.__init__(link, link_text, permissions=None,
buttons=None)`: sets the plain fields, then checks `type(permissions) in
(list, tuple)` (exact type test, raising `TypeError` otherwise), then
likewise for `buttons`. -/
def PluginMenuItem.init (link link_text : String)
    (permissions : Option (PySeq String)) (buttons : Option (PySeq BtnObj)) :
    Except PyError PluginMenuItem :=
  match permissions with
  | some p =>
      if typeInListTuple p.ty then
        itemSetButtons link link_text p.elems buttons
      else .error (.typeError "Permissions must be passed as a tuple or list.")
  | none => itemSetButtons link link_text [] buttons

/-- An element of the `class_list` passed to `register_menu_items`, as the
`isinstance(menu_link, PluginMenuItem)` check sees it: either a
`PluginMenuItem` instance (subclass instances included, since `isinstance`
accepts them) or some other object, carrying its display tag. -/
inductive MenuItemObj
  | item (m : PluginMenuItem)
  | other (tag : String)
  deriving DecidableEq

/-- The model of `registry['plugins']['menu_items']`: a dict from section
name to the registered list. -/
abbrev MenuItemsDict := List (String × List MenuItemObj)

/-- The inner loop of `register_menu_items`'s validation: the error raised
for the first element of `buttons` that is not a `PluginMenuButton`
instance, if any. -/
def firstBadButton (buttons : List BtnObj) : Option PyError :=
  match buttons with
  | [] => none
  | .button _ :: rest => firstBadButton rest
  | .other tag :: _ =>
      some (.typeError (tag ++ " must be an instance of extras.plugins.PluginMenuButton"))

/-- The validation loop of `register_menu_items`: for each element of
`class_list`, raise if it is not a `PluginMenuItem` instance, then raise
for any of its buttons that is not a `PluginMenuButton` instance.
Returns the first error raised, or `none`. -/
def validateMenuItems (class_list : List MenuItemObj) : Option PyError :=
  match class_list with
  | [] => none
  | .other tag :: _ =>
      some (.typeError (tag ++ " must be an instance of extras.plugins.PluginMenuItem"))
  | .item m :: rest =>
      match firstBadButton m.buttons with
      | some e => some e
      | none => validateMenuItems rest

/-- `register_menu_items(section_name, class_list)`: validate the entire
list first; only after the whole loop succeeds, assign
`registry['plugins']['menu_items'][section_name] = class_list`.  The
second component is the final state of the `menu_items` dict. -/
def register_menu_items (section_name : String)
    (class_list : List MenuItemObj) (menu_items : MenuItemsDict) :
    Except PyError Unit × MenuItemsDict :=
  match validateMenuItems class_list with
  | some e => (.error e, menu_items)
  | none => (.ok (), dictSet menu_items section_name class_list)

/-- An element of the `class_list` passed to
`register_template_extensions`, as its three checks see it:
`instanceObj` fails `inspect.isclass`; `nonSubclass` is a class that is
not a subclass of `PluginTemplateExtension`; `extClass name model` is a
`PluginTemplateExtension` subclass with the given `model` class
attribute (`none` models the inherited `model = None`). -/
inductive ExtCandidate
  | instanceObj (tag : String)
  | nonSubclass (tag : String)
  | extClass (name : String) (model : Option String)
  deriving DecidableEq

/-- The `model` attribute of a candidate, when it is a
`PluginTemplateExtension` subclass that sets one. -/
def ExtCandidate.modelKey (c : ExtCandidate) : Option String :=
  match c with
  | .extClass _ m => m
  | _ => none

/-- The per-candidate checks of `register_template_extensions`, in source
order: not a class, not a subclass of `PluginTemplateExtension`,
`model is None`.  Returns the raised error, or `none`. -/
def validateTemplateExtension (c : ExtCandidate) : Option PyError :=
  match c with
  | .instanceObj tag =>
      some (.typeError ("PluginTemplateExtension class " ++ tag ++ " was passed as an instance!"))
  | .nonSubclass tag =>
      some (.typeError (tag ++ " is not a subclass of extras.plugins.PluginTemplateExtension!"))
  | .extClass name model =>
      match model with
      | none =>
          some (.typeError ("PluginTemplateExtension class " ++ name ++ " does not define a valid model!"))
      | some _ => none

/-- The model of `registry['plugins']['template_extensions']`, a
`defaultdict(list)` keyed by model string. -/
abbrev TmplDict := List (String × List ExtCandidate)

/-- `d[k].append(v)` on a `defaultdict(list)`: a missing key gets a fresh
singleton entry (at the end, preserving insertion order); an existing
key's list is extended in place. -/
def ddAppend (d : TmplDict) (k : String) (v : ExtCandidate) : TmplDict :=
  match d with
  | [] => [(k, [v])]
  | (k', vs) :: rest =>
      if k' == k then (k', vs ++ [v]) :: rest else (k', vs) :: ddAppend rest k v

/-- `d[k]` on a `defaultdict(list)` read as a list: `[]` when absent. -/
def ddLookup (d : TmplDict) (k : String) : List ExtCandidate :=
  (dictLookup d k).getD []

/-- Membership of a candidate among the registered values of the
`template_extensions` dict. -/
def ddMem (x : ExtCandidate) (d : TmplDict) : Prop :=
  ∃ p ∈ d, x ∈ p.2

/-- `register_template_extensions(class_list)`: for each candidate, run the
checks and — still inside the same loop iteration — append the candidate
to `registry['plugins']['template_extensions'][candidate.model]`.  A
failing candidate aborts the loop, leaving earlier appends in place.  The
second component is the final state of the dict.  (In the recursive call
the candidate passed validation, so `modelKey` is `some`; `getD` never
supplies its default.) -/
def register_template_extensions (class_list : List ExtCandidate)
    (template_extensions : TmplDict) : Except PyError Unit × TmplDict :=
  match class_list with
  | [] => (.ok (), template_extensions)
  | c :: rest =>
      match validateTemplateExtension c with
      | some e => (.error e, template_extensions)
      | none =>
          register_template_extensions rest
            (ddAppend template_extensions (c.modelKey.getD "") c)

/-- The mutation one passing candidate performs inside
`register_template_extensions`'s loop, folded over a list of candidates:
the registry state after the loop has processed exactly those
candidates. -/
def registerAllValid (st : TmplDict) (cs : List ExtCandidate) : TmplDict :=
  List.foldl (fun s c => ddAppend s (c.modelKey.getD "") c) st cs

/-! ### Dictionary lemmas -/

theorem dictContains_append {α : Type} (d₁ d₂ : List (String × α)) (k : String) :
    dictContains (d₁ ++ d₂) k = (dictContains d₁ k || dictContains d₂ k) := by
  induction d₁ with
  | nil => simp [dictContains]
  | cons p rest ih => simp [dictContains, ih, Bool.or_assoc]

theorem dictLookup_eq_none {α : Type} {d : List (String × α)} {k : String}
    (h : dictContains d k = false) : dictLookup d k = none := by
  induction d with
  | nil => rfl
  | cons p rest ih =>
      obtain ⟨k', v⟩ := p
      simp only [dictContains, Bool.or_eq_false_iff] at h
      simp [dictLookup, h.1, ih h.2]

theorem dictLookup_append_left {α : Type} {d₁ : List (String × α)}
    (d₂ : List (String × α)) {k : String} (h : dictContains d₁ k = true) :
    dictLookup (d₁ ++ d₂) k = dictLookup d₁ k := by
  induction d₁ with
  | nil => simp [dictContains] at h
  | cons p rest ih =>
      obtain ⟨k', v⟩ := p
      by_cases hk : k' == k
      · simp [dictLookup, hk]
      · simp only [dictContains, hk, Bool.false_or] at h
        simp [dictLookup, hk, ih h]

theorem dictLookup_append_right {α : Type} {d₁ : List (String × α)}
    (d₂ : List (String × α)) {k : String} (h : dictContains d₁ k = false) :
    dictLookup (d₁ ++ d₂) k = dictLookup d₂ k := by
  induction d₁ with
  | nil => rfl
  | cons p rest ih =>
      obtain ⟨k', v⟩ := p
      simp only [dictContains, Bool.or_eq_false_iff] at h
      simp [dictLookup, h.1, ih h.2]

theorem dictContains_of_mem {α : Type} {d : List (String × α)} {k : String}
    {v : α} (h : (k, v) ∈ d) : dictContains d k = true := by
  induction d with
  | nil => cases h
  | cons p rest ih =>
      rcases List.mem_cons.mp h with h | h
      · simp [dictContains, ← h]
      · simp [dictContains, ih h]

theorem dictLookup_dictSet_self {α : Type} (d : List (String × α)) (k : String)
    (v : α) : dictLookup (dictSet d k v) k = some v := by
  induction d with
  | nil => simp [dictSet, dictLookup]
  | cons p rest ih =>
      obtain ⟨k', v'⟩ := p
      by_cases hk : k' == k
      · simp [dictSet, hk, dictLookup]
      · simp [dictSet, hk, dictLookup, ih]

theorem dictLookup_dictSet_ne {α : Type} (d : List (String × α))
    {k k' : String} (v : α) (h : k' ≠ k) :
    dictLookup (dictSet d k v) k' = dictLookup d k' := by
  induction d with
  | nil =>
      simp [dictSet, dictLookup]
      exact Ne.symm h
  | cons p rest ih =>
      obtain ⟨k₀, v₀⟩ := p
      by_cases hk : k₀ == k
      · have hkk : k ≠ k' := fun hc => h hc.symm
        have hk₀ : k₀ = k := by simpa using hk
        simp [dictSet, hk, dictLookup, hk₀, hkk, h.symm]
      · simp [dictSet, hk, dictLookup, ih]

theorem dictLookup_perm {α : Type} {d d' : List (String × α)} (h : d.Perm d') :
    (d.map Prod.fst).Nodup → ∀ k, dictLookup d k = dictLookup d' k := by
  induction h with
  | nil => intro _ _; rfl
  | cons x h ih =>
      intro hnd k
      obtain ⟨k₀, v₀⟩ := x
      simp only [List.map_cons, List.nodup_cons] at hnd
      by_cases hk : k₀ == k
      · simp [dictLookup, hk]
      · simp [dictLookup, hk, ih hnd.2 k]
  | swap x y l =>
      intro hnd k
      obtain ⟨k₁, v₁⟩ := x
      obtain ⟨k₂, v₂⟩ := y
      simp only [List.map_cons, List.nodup_cons, List.mem_cons] at hnd
      by_cases h₁ : k₁ == k
      · by_cases h₂ : k₂ == k
        · exfalso
          have e₁ : k₁ = k := by simpa using h₁
          have e₂ : k₂ = k := by simpa using h₂
          exact hnd.1 (Or.inl (e₂.trans e₁.symm))
        · simp [dictLookup, h₁, h₂]
      · simp [dictLookup, h₁]
  | trans h₁ h₂ ih₁ ih₂ =>
      intro hnd k
      exact (ih₁ hnd k).trans (ih₂ (((h₁.map Prod.fst).nodup_iff).mp hnd) k)

/-! ### Lemmas about the defaults-application step -/

theorem dictContains_applyDefaults (d : List (String × ConfigVal))
    (cfg : CfgDict) (k : String) :
    dictContains (applyDefaults d cfg) k = (dictContains cfg k || dictContains d k) := by
  induction d generalizing cfg with
  | nil => simp [applyDefaults, dictContains]
  | cons p rest ih =>
      obtain ⟨k₀, v₀⟩ := p
      by_cases h₀ : dictContains cfg k₀
      · by_cases hk : k₀ == k
        · have e : k₀ = k := by simpa using hk
          subst e
          simp [applyDefaults, h₀, ih, dictContains]
        · simp [applyDefaults, h₀, ih, dictContains, hk]
      · simp [applyDefaults, h₀, ih, dictContains_append, dictContains,
          Bool.or_assoc]

theorem applyDefaults_eq_self {d : List (String × ConfigVal)} {cfg : CfgDict}
    (h : ∀ p ∈ d, dictContains cfg p.1 = true) : applyDefaults d cfg = cfg := by
  induction d with
  | nil => rfl
  | cons p rest ih =>
      obtain ⟨k₀, v₀⟩ := p
      have h₀ : dictContains cfg k₀ = true := h (k₀, v₀) (List.mem_cons_self _ _)
      simp only [applyDefaults, h₀, if_true]
      exact ih fun q hq => h q (List.mem_cons_of_mem _ hq)

theorem dictLookup_applyDefaults (d : List (String × ConfigVal))
    (cfg : CfgDict) (k : String) :
    dictLookup (applyDefaults d cfg) k =
      if dictContains cfg k then dictLookup cfg k else dictLookup d k := by
  induction d generalizing cfg with
  | nil =>
      by_cases hk : dictContains cfg k
      · simp [applyDefaults, hk]
      · simp [applyDefaults, hk, dictLookup_eq_none (by simpa using hk), dictLookup]
  | cons p rest ih =>
      obtain ⟨k₀, v₀⟩ := p
      by_cases h₀ : dictContains cfg k₀
      · by_cases hk : dictContains cfg k
        · simp [applyDefaults, h₀, ih, hk]
        · have hne : (k₀ == k) = false := by
            rcases Bool.eq_false_or_eq_true (k₀ == k) with h | h
            · have e : k₀ = k := by simpa using h
              subst e
              rw [h₀] at hk
              cases hk rfl
            · exact h
          simp [applyDefaults, h₀, ih, hk, dictLookup, hne]
      · by_cases hk : dictContains cfg k
        · have hca : dictContains (cfg ++ [(k₀, v₀)]) k = true := by
            simp [dictContains_append, hk]
          simp [applyDefaults, h₀, ih, hca, hk, dictLookup_append_left _ hk]
        · by_cases hkk : k₀ == k
          · have e : k₀ = k := by simpa using hkk
            subst e
            have hca : dictContains (cfg ++ [(k₀, v₀)]) k₀ = true := by
              simp [dictContains_append, dictContains]
            simp [applyDefaults, h₀, ih, hca, hk,
              dictLookup_append_right _ (by simpa using hk), dictLookup]
          · have hca : dictContains (cfg ++ [(k₀, v₀)]) k = false := by
              simp [dictContains_append, dictContains, hk, hkk]
            simp [applyDefaults, h₀, ih, hca, hk,
              dictLookup_append_right _ (by simpa using hk), dictLookup, hkk]

theorem applyDefaults_applyDefaults (d : List (String × ConfigVal))
    (cfg : CfgDict) :
    applyDefaults d (applyDefaults d cfg) = applyDefaults d cfg := by
  apply applyDefaults_eq_self
  intro p hp
  rw [dictContains_applyDefaults]
  simp [dictContains_of_mem (show (p.1, p.2) ∈ d from hp)]

/-! ### Lemmas about the required-settings check and `validate` -/

theorem checkRequired_eq_some {req : List String} {cfg : CfgDict} {s : String}
    (h : checkRequired req cfg = some s) :
    s ∈ req ∧ dictContains cfg s = false := by
  induction req with
  | nil => simp [checkRequired] at h
  | cons a rest ih =>
      by_cases ha : dictContains cfg a
      · rw [checkRequired, if_pos ha] at h
        obtain ⟨h₁, h₂⟩ := ih h
        exact ⟨List.mem_cons_of_mem _ h₁, h₂⟩
      · rw [checkRequired, if_neg ha] at h
        obtain rfl : a = s := by simpa using h
        exact ⟨List.mem_cons_self _ _, by simpa using ha⟩

theorem checkRequired_isSome {req : List String} {cfg : CfgDict} {k : String}
    (hk : k ∈ req) (hm : dictContains cfg k = false) :
    (checkRequired req cfg).isSome := by
  induction req with
  | nil => cases hk
  | cons a rest ih =>
      by_cases ha : dictContains cfg a
      · have hrest : k ∈ rest := by
          rcases List.mem_cons.mp hk with h | h
          · subst h; rw [hm] at ha; cases ha
          · exact h
        rw [checkRequired, if_pos ha]
        exact ih hrest
      · rw [checkRequired, if_neg ha]
        rfl

theorem validateRequiredStep_shape (cls : PluginConfigMeta) (cfg : CfgDict) :
    (∃ e, validateRequiredStep cls cfg = (.error e, cfg)) ∨
    validateRequiredStep cls cfg = (.ok (), applyDefaults cls.default_settings cfg) := by
  unfold validateRequiredStep
  cases h : checkRequired cls.required_settings cfg with
  | some s => exact Or.inl ⟨_, rfl⟩
  | none => exact Or.inr rfl

theorem validateMaxStep_shape (cls : PluginConfigMeta) (cfg : CfgDict)
    (v : Version) :
    (∃ e, validateMaxStep cls cfg v = (.error e, cfg)) ∨
    validateMaxStep cls cfg v = (.ok (), applyDefaults cls.default_settings cfg) := by
  unfold validateMaxStep
  cases hM : cls.max_version with
  | some M =>
      by_cases hv : M < v
      · refine Or.inl ⟨.maxVersionRequired M, ?_⟩
        simp [hv]
      · simpa [hv] using validateRequiredStep_shape cls cfg
  | none => exact validateRequiredStep_shape cls cfg

theorem validate_shape (cls : PluginConfigMeta) (cfg : CfgDict) (v : Version) :
    (∃ e, cls.validate cfg v = (.error e, cfg)) ∨
    cls.validate cfg v = (.ok (), applyDefaults cls.default_settings cfg) := by
  unfold PluginConfigMeta.validate
  cases hm : cls.min_version with
  | some m =>
      by_cases hv : v < m
      · refine Or.inl ⟨.minVersionRequired m, ?_⟩
        simp [hv]
      · simpa [hv] using validateMaxStep_shape cls cfg v
  | none => exact validateMaxStep_shape cls cfg v

/-! ### Lemmas about the menu-items registrar -/

theorem firstBadButton_isSome {bs : List BtnObj}
    (h : ∃ tag, BtnObj.other tag ∈ bs) : (firstBadButton bs).isSome := by
  induction bs with
  | nil => obtain ⟨tag, htag⟩ := h; cases htag
  | cons b rest ih =>
      cases b with
      | button p =>
          obtain ⟨tag, htag⟩ := h
          rcases List.mem_cons.mp htag with h' | h'
          · cases h'
          · exact ih ⟨tag, h'⟩
      | other tag => rfl

theorem firstBadButton_typeError {bs : List BtnObj} {e : PyError}
    (h : firstBadButton bs = some e) : ∃ msg, e = .typeError msg := by
  induction bs with
  | nil => cases h
  | cons b rest ih =>
      cases b with
      | button p => exact ih h
      | other tag =>
          obtain rfl : PyError.typeError
              (tag ++ " must be an instance of extras.plugins.PluginMenuButton") = e := by
            simpa [firstBadButton] using h
          exact ⟨_, rfl⟩

theorem validateMenuItems_isSome {cl : List MenuItemObj}
    (h : (∃ tag, MenuItemObj.other tag ∈ cl) ∨
         (∃ m, MenuItemObj.item m ∈ cl ∧ ∃ tag, BtnObj.other tag ∈ m.buttons)) :
    (validateMenuItems cl).isSome := by
  induction cl with
  | nil =>
      rcases h with ⟨tag, htag⟩ | ⟨m, hm, _⟩
      · cases htag
      · cases hm
  | cons c rest ih =>
      cases c with
      | other tag => rfl
      | item m₀ =>
          rw [validateMenuItems]
          cases hb : firstBadButton m₀.buttons with
          | some e => rfl
          | none =>
              apply ih
              rcases h with ⟨tag, htag⟩ | ⟨m, hm, tag, htag⟩
              · rcases List.mem_cons.mp htag with h' | h'
                · cases h'
                · exact Or.inl ⟨tag, h'⟩
              · rcases List.mem_cons.mp hm with h' | h'
                · exfalso
                  obtain rfl : m₀ = m := by
                    injection h'.symm
                  have := firstBadButton_isSome ⟨tag, htag⟩
                  rw [hb] at this
                  cases this
                · exact Or.inr ⟨m, h', tag, htag⟩

theorem validateMenuItems_typeError {cl : List MenuItemObj} {e : PyError}
    (h : validateMenuItems cl = some e) : ∃ msg, e = .typeError msg := by
  induction cl with
  | nil => cases h
  | cons c rest ih =>
      cases c with
      | other tag =>
          obtain rfl : PyError.typeError
              (tag ++ " must be an instance of extras.plugins.PluginMenuItem") = e := by
            simpa [validateMenuItems] using h
          exact ⟨_, rfl⟩
      | item m =>
          rw [validateMenuItems] at h
          cases hb : firstBadButton m.buttons with
          | some e' =>
              rw [hb] at h
              obtain rfl : e' = e := by simpa using h
              exact firstBadButton_typeError hb
          | none =>
              rw [hb] at h
              exact ih h

/-! ### Lemmas about the template-extensions registrar -/

theorem ddLookup_ddAppend_self (d : TmplDict) (k : String) (v : ExtCandidate) :
    ddLookup (ddAppend d k v) k = ddLookup d k ++ [v] := by
  induction d with
  | nil => simp [ddAppend, ddLookup, dictLookup]
  | cons p rest ih =>
      obtain ⟨k', vs⟩ := p
      by_cases hk : k' == k
      · simp [ddAppend, hk, ddLookup, dictLookup]
      · simp only [ddAppend, hk, Bool.false_eq_true, if_false, ddLookup, dictLookup]
        simpa [ddLookup] using ih

theorem ddMem_ddAppend {x v : ExtCandidate} {d : TmplDict} {k : String}
    (h : ddMem x (ddAppend d k v)) : ddMem x d ∨ x = v := by
  induction d with
  | nil =>
      obtain ⟨p, hp, hx⟩ := h
      obtain rfl : p = (k, [v]) := by simpa [ddAppend] using hp
      right
      simpa using hx
  | cons q rest ih =>
      obtain ⟨k', vs⟩ := q
      by_cases hk : k' == k
      · obtain ⟨p, hp, hx⟩ := h
        rw [ddAppend, if_pos hk] at hp
        rcases List.mem_cons.mp hp with h' | h'
        · subst h'
          rcases List.mem_append.mp hx with h'' | h''
          · exact Or.inl ⟨(k', vs), List.mem_cons_self _ _, h''⟩
          · right; simpa using h''
        · exact Or.inl ⟨p, List.mem_cons_of_mem _ h', hx⟩
      · obtain ⟨p, hp, hx⟩ := h
        rw [ddAppend, if_neg hk] at hp
        rcases List.mem_cons.mp hp with h' | h'
        · subst h'
          exact Or.inl ⟨(k', vs), List.mem_cons_self _ _, hx⟩
        · rcases ih ⟨p, h', hx⟩ with h'' | h''
          · obtain ⟨q, hq, hxq⟩ := h''
            exact Or.inl ⟨q, List.mem_cons_of_mem _ hq, hxq⟩
          · exact Or.inr h''

/-! ### Claims about `PluginConfig.validate` -/

/-- Claim C2: for every descriptor whose `min_version` and `max_version` are
both set with `min_version > max_version`, and for every host version,
`validate` raises `ConfigurationError`: the minimum bound is checked first,
so it reports the minimum-version violation when the host version is below
`min_version` and otherwise the maximum-version violation, with no
special-casing of the inconsistent bounds. -/
theorem C2_validate_inverted_bounds (cls : PluginConfigMeta) (cfg : CfgDict)
    (v m M : Version) (hmin : cls.min_version = some m)
    (hmax : cls.max_version = some M) (hinv : M < m) :
    cls.validate cfg v =
      (if v < m then (Except.error (ConfigError.minVersionRequired m), cfg)
       else (Except.error (ConfigError.maxVersionRequired M), cfg)) := by
  unfold PluginConfigMeta.validate validateMaxStep
  rw [hmin, hmax]
  by_cases hv : v < m
  · simp [hv]
  · have hMv : M < v := lt_of_lt_of_le hinv (Nat.le_of_not_lt hv)
    simp [hv, hMv]

theorem C2_witness :
    ({ min_version := some 5, max_version := some 3, required_settings := [],
       default_settings := [] } : PluginConfigMeta).validate [] 6 =
      (if (6 : Version) < 5 then
        (Except.error (ConfigError.minVersionRequired 5), ([] : CfgDict))
       else (Except.error (ConfigError.maxVersionRequired 3), [])) :=
  C2_validate_inverted_bounds _ [] 6 5 3 rfl rfl (by decide)

/-- Claim C3: for every `user_config` that passes the version check but is
missing some key listed in `required_settings`, `validate` raises a
`ConfigurationError` naming a missing key (the first missing one), and
`user_config` is not mutated: the post-call state equals the original,
with no entry from `default_settings` inserted. -/
theorem C3_validate_missing_required (cls : PluginConfigMeta) (cfg : CfgDict)
    (v : Version) (k : String)
    (hmin : ∀ m, cls.min_version = some m → ¬ v < m)
    (hmax : ∀ M, cls.max_version = some M → ¬ M < v)
    (hk : k ∈ cls.required_settings) (hmiss : dictContains cfg k = false) :
    ∃ s, s ∈ cls.required_settings ∧ dictContains cfg s = false ∧
      cls.validate cfg v = (Except.error (ConfigError.missingSetting s), cfg) := by
  obtain ⟨s, hs⟩ := Option.isSome_iff_exists.mp (checkRequired_isSome hk hmiss)
  obtain ⟨hsmem, hsmiss⟩ := checkRequired_eq_some hs
  refine ⟨s, hsmem, hsmiss, ?_⟩
  unfold PluginConfigMeta.validate validateMaxStep validateRequiredStep
  cases hm : cls.min_version with
  | some m =>
      cases hM : cls.max_version with
      | some M => simp [hmin m hm, hmax M hM, hs]
      | none => simp [hmin m hm, hs]
  | none =>
      cases hM : cls.max_version with
      | some M => simp [hmax M hM, hs]
      | none => simp [hs]

theorem C3_witness :
    ∃ s, s ∈ ["api_key"] ∧ dictContains ([] : CfgDict) s = false ∧
      ({ min_version := some 35, max_version := some 40,
         required_settings := ["api_key"],
         default_settings := [("timeout", "30")] } : PluginConfigMeta).validate [] 37 =
        (Except.error (ConfigError.missingSetting s), []) :=
  C3_validate_missing_required
    { min_version := some 35, max_version := some 40,
      required_settings := ["api_key"], default_settings := [("timeout", "30")] }
    [] 37 "api_key"
    (fun m hm => Option.some.inj hm ▸ (by decide : ¬ (37 : Version) < 35))
    (fun M hM => Option.some.inj hM ▸ (by decide : ¬ (40 : Version) < 37))
    (by decide) (by decide)

/-- Claim C5: for every `user_config` already containing a key, a successful
run of `validate` leaves that key's value unchanged: defaults are inserted
only for absent keys and existing entries are never overwritten. -/
theorem C5_validate_preserves_existing (cls : PluginConfigMeta) (cfg : CfgDict)
    (v : Version) (k : String)
    (hok : (cls.validate cfg v).fst = Except.ok ())
    (hk : dictContains cfg k = true) :
    dictLookup (cls.validate cfg v).snd k = dictLookup cfg k := by
  rcases validate_shape cls cfg v with ⟨e, he⟩ | hshape
  · rw [he] at hok
    cases hok
  · rw [hshape]
    simp [dictLookup_applyDefaults, hk]

theorem C5_witness :
    dictLookup (({ min_version := none, max_version := none,
                   required_settings := [],
                   default_settings := [("timeout", "30")] } :
        PluginConfigMeta).validate [("timeout", "60")] 1).snd "timeout" =
      dictLookup [("timeout", "60")] "timeout" :=
  C5_validate_preserves_existing
    { min_version := none, max_version := none, required_settings := [],
      default_settings := [("timeout", "30")] }
    [("timeout", "60")] 1 "timeout" (by decide) (by decide)

/-- Claim C9: the defaults-application step of `validate` is idempotent —
applying it twice yields the same configuration as once — and, for
default mappings with distinct keys (as Python dicts have), the resulting
configuration does not depend on the order in which the default keys are
applied (the two results agree at every key). -/
theorem C9_applyDefaults_idempotent_order_independent
    (d d' : List (String × ConfigVal)) (cfg : CfgDict)
    (hperm : d.Perm d') (hnd : (d.map Prod.fst).Nodup) :
    applyDefaults d (applyDefaults d cfg) = applyDefaults d cfg ∧
    ∀ k, dictLookup (applyDefaults d cfg) k = dictLookup (applyDefaults d' cfg) k := by
  refine ⟨applyDefaults_applyDefaults d cfg, fun k => ?_⟩
  rw [dictLookup_applyDefaults, dictLookup_applyDefaults]
  by_cases hk : dictContains cfg k
  · simp [hk]
  · simp [hk, dictLookup_perm hperm hnd k]

theorem C9_witness :
    applyDefaults [("a", "1"), ("b", "2")]
        (applyDefaults [("a", "1"), ("b", "2")] [("b", "x")]) =
      applyDefaults [("a", "1"), ("b", "2")] [("b", "x")] ∧
    ∀ k, dictLookup (applyDefaults [("a", "1"), ("b", "2")] [("b", "x")]) k =
      dictLookup (applyDefaults [("b", "2"), ("a", "1")] [("b", "x")]) k :=
  C9_applyDefaults_idempotent_order_independent _ _ [("b", "x")]
    (List.Perm.swap ("b", "2") ("a", "1") []) (by decide)

/-! ### Claims about `register_menu_items` -/

/-- Claim C4: for every section name and list passed to
`register_menu_items`, if any element is not a `PluginMenuItem` instance,
or any element's `buttons` contains something that is not a
`PluginMenuButton` instance, the call raises `TypeError` and the
`menu_items` mapping is unchanged: the whole list is validated before any
mutation, so the call is atomic. -/
theorem C4_register_menu_items_atomic (section_name : String)
    (class_list : List MenuItemObj) (menu_items : MenuItemsDict)
    (hbad : (∃ tag, MenuItemObj.other tag ∈ class_list) ∨
            (∃ m, MenuItemObj.item m ∈ class_list ∧
              ∃ tag, BtnObj.other tag ∈ m.buttons)) :
    ∃ msg, register_menu_items section_name class_list menu_items =
      (Except.error (PyError.typeError msg), menu_items) := by
  obtain ⟨e, he⟩ := Option.isSome_iff_exists.mp (validateMenuItems_isSome hbad)
  obtain ⟨msg, rfl⟩ := validateMenuItems_typeError he
  refine ⟨msg, ?_⟩
  unfold register_menu_items
  rw [he]

theorem C4_witness :
    ∃ msg, register_menu_items "sec" [MenuItemObj.other "42"] [("x", [])] =
      (Except.error (PyError.typeError msg), [("x", [])]) :=
  C4_register_menu_items_atomic "sec" [MenuItemObj.other "42"] [("x", [])]
    (Or.inl ⟨"42", by decide⟩)

/-- Claim C7: calling `register_menu_items` twice with the same section key
and two valid lists leaves exactly the second list under that key
(last-write-wins), while every other section key's entry is exactly what
it was before the second call. -/
theorem C7_register_menu_items_overwrite (sec : String)
    (l₁ l₂ : List MenuItemObj) (st : MenuItemsDict)
    (h₁ : validateMenuItems l₁ = none) (h₂ : validateMenuItems l₂ = none) :
    dictLookup (register_menu_items sec l₂
        (register_menu_items sec l₁ st).snd).snd sec = some l₂ ∧
    ∀ k, k ≠ sec →
      dictLookup (register_menu_items sec l₂
          (register_menu_items sec l₁ st).snd).snd k =
        dictLookup (register_menu_items sec l₁ st).snd k := by
  have e₁ : register_menu_items sec l₁ st = (Except.ok (), dictSet st sec l₁) := by
    unfold register_menu_items
    rw [h₁]
  have e₂ : ∀ d, register_menu_items sec l₂ d = (Except.ok (), dictSet d sec l₂) := by
    intro d
    unfold register_menu_items
    rw [h₂]
  rw [e₁, e₂]
  exact ⟨dictLookup_dictSet_self _ _ _, fun k hk => dictLookup_dictSet_ne _ _ hk⟩

theorem C7_witness :
    dictLookup (register_menu_items "sec" []
        (register_menu_items "sec"
          [MenuItemObj.item
            { link := "a", link_text := "A", permissions := [], buttons := [] }]
          [("other", [])]).snd).snd "sec" = some [] ∧
    ∀ k, k ≠ "sec" →
      dictLookup (register_menu_items "sec" []
          (register_menu_items "sec"
            [MenuItemObj.item
              { link := "a", link_text := "A", permissions := [], buttons := [] }]
            [("other", [])]).snd).snd k =
        dictLookup (register_menu_items "sec"
          [MenuItemObj.item
            { link := "a", link_text := "A", permissions := [], buttons := [] }]
          [("other", [])]).snd k :=
  C7_register_menu_items_overwrite "sec"
    [MenuItemObj.item
      { link := "a", link_text := "A", permissions := [], buttons := [] }]
    [] [("other", [])] (by decide) (by decide)

/-! ### Claims about `register_template_extensions` -/

/-- Claim C6: registering, in two calls, two valid template-extension
classes that declare the same target-kind results in both classes present
in that target-kind's list in registration order: both calls succeed, and
the second registration appends after the first without displacing it. -/
theorem C6_template_extensions_append (nA nB m : String) (st : TmplDict) :
    (register_template_extensions [ExtCandidate.extClass nA (some m)] st).fst =
      Except.ok () ∧
    (register_template_extensions [ExtCandidate.extClass nB (some m)]
        (register_template_extensions [ExtCandidate.extClass nA (some m)] st).snd).fst =
      Except.ok () ∧
    ddLookup (register_template_extensions [ExtCandidate.extClass nB (some m)]
        (register_template_extensions [ExtCandidate.extClass nA (some m)] st).snd).snd m =
      ddLookup st m ++
        [ExtCandidate.extClass nA (some m), ExtCandidate.extClass nB (some m)] := by
  have hA : register_template_extensions [ExtCandidate.extClass nA (some m)] st =
      (Except.ok (), ddAppend st m (ExtCandidate.extClass nA (some m))) := rfl
  have hB : ∀ d, register_template_extensions [ExtCandidate.extClass nB (some m)] d =
      (Except.ok (), ddAppend d m (ExtCandidate.extClass nB (some m))) := fun d => rfl
  rw [hA, hB]
  refine ⟨rfl, rfl, ?_⟩
  rw [ddLookup_ddAppend_self, ddLookup_ddAppend_self, List.append_assoc]
  rfl

/-- One loop step of `register_template_extensions` for a candidate whose
validation raises: the recursion stops with the error and the current
state. -/
theorem register_append_valid (pre suf : List ExtCandidate) :
    ∀ st : TmplDict, (∀ c ∈ pre, validateTemplateExtension c = none) →
      register_template_extensions (pre ++ suf) st =
        register_template_extensions suf (registerAllValid st pre) := by
  induction pre with
  | nil =>
      intro st _
      simp [registerAllValid]
  | cons c pre' ih =>
      intro st hpre
      have hc : validateTemplateExtension c = none := hpre c (List.mem_cons_self _ _)
      have hstep : register_template_extensions ((c :: pre') ++ suf) st =
          match validateTemplateExtension c with
          | some e => (Except.error e, st)
          | none => register_template_extensions (pre' ++ suf)
              (ddAppend st (c.modelKey.getD "") c) := rfl
      rw [hstep, hc]
      exact ih (ddAppend st (c.modelKey.getD "") c)
        (fun q hq => hpre q (List.mem_cons_of_mem _ hq))

/-- Every candidate present among the values after folding the loop's
per-candidate mutation was present before or is one of the folded
candidates. -/
theorem ddMem_registerAllValid {x : ExtCandidate} {cs : List ExtCandidate} :
    ∀ {st : TmplDict}, ddMem x (registerAllValid st cs) → ddMem x st ∨ x ∈ cs := by
  induction cs with
  | nil => exact fun h => Or.inl h
  | cons c rest ih =>
      intro st h
      rcases ih h with h' | h'
      · rcases ddMem_ddAppend h' with h'' | h''
        · exact Or.inl h''
        · exact Or.inr (h'' ▸ List.mem_cons_self _ _)
      · exact Or.inr (List.mem_cons_of_mem _ h')

/-- Claim C1, counterexample: a list with a valid candidate followed by one
whose `model` is unset fails with `TypeError`, but the registry is NOT
left as it was before the call — the valid candidate was already
appended. -/
theorem C1_counterexample :
    (register_template_extensions
        [ExtCandidate.extClass "GoodExtension" (some "dcim.device"),
         ExtCandidate.extClass "BadExtension" none] []).fst =
      Except.error (PyError.typeError
        "PluginTemplateExtension class BadExtension does not define a valid model!") ∧
    (register_template_extensions
        [ExtCandidate.extClass "GoodExtension" (some "dcim.device"),
         ExtCandidate.extClass "BadExtension" none] []).snd ≠ ([] : TmplDict) := by
  exact ⟨rfl, by decide⟩

/-- Claim C1, amended: registering a list containing a candidate whose
`model` is unset fails with `TypeError` naming it, and the failing class
itself is never appended (if it was not registered before the call, it is
not registered after); however the candidates preceding the first failing
one have already been appended — mutation is per-candidate, and the call
is not atomic. -/
theorem C1_template_extension_no_model (pre rest : List ExtCandidate)
    (n : String) (st : TmplDict)
    (hpre : ∀ c ∈ pre, validateTemplateExtension c = none) :
    register_template_extensions (pre ++ ExtCandidate.extClass n none :: rest) st =
      (Except.error (PyError.typeError
        ("PluginTemplateExtension class " ++ n ++ " does not define a valid model!")),
       registerAllValid st pre) ∧
    (¬ ddMem (ExtCandidate.extClass n none) st →
      ¬ ddMem (ExtCandidate.extClass n none) (registerAllValid st pre)) := by
  constructor
  · rw [register_append_valid pre _ st hpre]
    rfl
  · intro hst hmem
    rcases ddMem_registerAllValid hmem with h | h
    · exact hst h
    · have hc := hpre _ h
      simp [validateTemplateExtension] at hc

theorem C1_witness :
    register_template_extensions
        ([ExtCandidate.extClass "GoodExtension" (some "dcim.device")] ++
          ExtCandidate.extClass "BadExtension" none :: []) [] =
      (Except.error (PyError.typeError
        ("PluginTemplateExtension class " ++ "BadExtension" ++
          " does not define a valid model!")),
       registerAllValid []
         [ExtCandidate.extClass "GoodExtension" (some "dcim.device")]) ∧
    (¬ ddMem (ExtCandidate.extClass "BadExtension" none) [] →
      ¬ ddMem (ExtCandidate.extClass "BadExtension" none)
        (registerAllValid []
          [ExtCandidate.extClass "GoodExtension" (some "dcim.device")])) :=
  C1_template_extension_no_model
    [ExtCandidate.extClass "GoodExtension" (some "dcim.device")] []
    "BadExtension" [] (by decide)

/-! ### Claims about the menu constructors -/

/-- Claim C8: for a well-typed `permissions` argument, constructing a
`PluginMenuButton` with a color outside the enumerated palette
(`ButtonColorChoices.values()`) raises `ValueError`, so the object never
exists to be registered; for colors inside the palette, or omitted,
construction succeeds. -/
theorem C8_button_color_palette (link title icon_class : String)
    (color : Option String) (permissions : Option (PySeq String))
    (hperm : ∀ p, permissions = some p → typeInListTuple p.ty = true) :
    (∀ c, color = some c → ButtonColorChoices.values.contains c = false →
      PluginMenuButton.init link title icon_class color permissions =
        Except.error (PyError.valueError
          "Button color must be a choice within ButtonColorChoices.")) ∧
    ((color = none ∨
        ∃ c, color = some c ∧ ButtonColorChoices.values.contains c = true) →
      ∃ b, PluginMenuButton.init link title icon_class color permissions =
        Except.ok b) := by
  constructor
  · intro c hc hbad
    subst hc
    have hnot : c ∉ ButtonColorChoices.values := by simpa using hbad
    cases permissions with
    | none => simp [PluginMenuButton.init, buttonSetColor, hnot]
    | some p =>
        have hp := hperm p rfl
        simp [PluginMenuButton.init, hp, buttonSetColor, hnot]
  · intro hc
    cases permissions with
    | none =>
        rcases hc with rfl | ⟨c, rfl, hgood⟩
        · exact ⟨_, rfl⟩
        · have hmem : c ∈ ButtonColorChoices.values := by simpa using hgood
          refine ⟨{ link := link, title := title, icon_class := icon_class,
                    color := c, permissions := [] }, ?_⟩
          simp [PluginMenuButton.init, buttonSetColor, hmem]
    | some p =>
        have hp := hperm p rfl
        rcases hc with rfl | ⟨c, rfl, hgood⟩
        · refine ⟨{ link := link, title := title, icon_class := icon_class,
                    color := ButtonColorChoices.DEFAULT,
                    permissions := p.elems }, ?_⟩
          simp [PluginMenuButton.init, hp, buttonSetColor]
        · have hmem : c ∈ ButtonColorChoices.values := by simpa using hgood
          refine ⟨{ link := link, title := title, icon_class := icon_class,
                    color := c, permissions := p.elems }, ?_⟩
          simp [PluginMenuButton.init, hp, buttonSetColor, hmem]

theorem C8_witness :
    (∀ c, (some "magenta" : Option String) = some c →
      ButtonColorChoices.values.contains c = false →
      PluginMenuButton.init "lnk" "ttl" "icn" (some "magenta") none =
        Except.error (PyError.valueError
          "Button color must be a choice within ButtonColorChoices.")) ∧
    (((some "magenta" : Option String) = none ∨
        ∃ c, (some "magenta" : Option String) = some c ∧
          ButtonColorChoices.values.contains c = true) →
      ∃ b, PluginMenuButton.init "lnk" "ttl" "icn" (some "magenta") none =
        Except.ok b) :=
  C8_button_color_palette "lnk" "ttl" "icn" (some "magenta") none
    (fun p hp => by cases hp)

/-- Claim C10: the `permissions` and `buttons` arguments of
`PluginMenuItem.__init__` and `PluginMenuButton.__init__` are accepted
only when their runtime type is exactly `list` or exactly `tuple`: an
instance of a proper subclass (which `isinstance` would accept, but the
exact `type(x) in (list, tuple)` test does not) raises `TypeError` at
each of the three argument sites. -/
theorem C10_exact_type_test (t : PyType) (link link_text title icon_class : String)
    (perm_elems : List String) (btn_elems : List BtnObj)
    (_hinst : isinstanceListTuple t = true) (hexact : typeInListTuple t = false) :
    PluginMenuItem.init link link_text (some ⟨t, perm_elems⟩) none =
      Except.error (PyError.typeError "Permissions must be passed as a tuple or list.") ∧
    PluginMenuItem.init link link_text none (some ⟨t, btn_elems⟩) =
      Except.error (PyError.typeError "Buttons must be passed as a tuple or list.") ∧
    PluginMenuButton.init link title icon_class none (some ⟨t, perm_elems⟩) =
      Except.error (PyError.typeError "Permissions must be passed as a tuple or list.") := by
  refine ⟨?_, ?_, ?_⟩
  · simp [PluginMenuItem.init, hexact]
  · simp [PluginMenuItem.init, itemSetButtons, hexact]
  · simp [PluginMenuButton.init, hexact]

theorem C10_witness :
    PluginMenuItem.init "lnk" "txt" (some ⟨PyType.pyListSubclass, ["perm"]⟩) none =
      Except.error (PyError.typeError "Permissions must be passed as a tuple or list.") ∧
    PluginMenuItem.init "lnk" "txt" none (some ⟨PyType.pyListSubclass, []⟩) =
      Except.error (PyError.typeError "Buttons must be passed as a tuple or list.") ∧
    PluginMenuButton.init "lnk" "ttl" "icn" none
        (some ⟨PyType.pyListSubclass, ["perm"]⟩) =
      Except.error (PyError.typeError "Permissions must be passed as a tuple or list.") :=
  C10_exact_type_test PyType.pyListSubclass "lnk" "txt" "ttl" "icn" ["perm"] []
    (by decide) (by decide)

end NetBoxPlugins
